import Mathlib

/-!
# Verification of the ChemA ChEMBL→Weaviate importer and query utility

Shallow embedding of `src/chembl_importer.py` and `src/chembl_query.py`.
External collaborators (the Weaviate vector store, the sentence-transformer
embedding model, the ChEMBL web client) appear as explicit parameters or are
modelled from the collaborator contracts of the design document; the Python
control flow and data transformations are translated directly.
-/

namespace ChemA

deriving instance DecidableEq for Except

/-- Embedding vectors.  Only their identity matters to the properties proved
here, never their numeric content, so plain integer lists suffice. -/
abbrev Vec := List Int

/-- A compound record as fetched from the ChEMBL record source.  Optional
fields model dictionary keys that may be absent (`compound.get(...)` returns
the supplied default when the key is missing). -/
structure Compound where
  molecule_chembl_id : String
  pref_name : Option String := none
  molecule_type : Option String := none
  max_phase : Option Int := none
  therapeutic_flag : Option Bool := none
  structure_type : Option String := none
deriving DecidableEq, Repr

/-- Python truthiness of `compound.get(key)` for a string-valued key:
false when the key is absent or the value is the empty string. -/
def pyTruthyStr : Option String → Bool
  | none => false
  | some s => s ≠ ""

/-- Python truthiness of `compound.get(key)` for an integer-valued key:
false when the key is absent or the value is `0`. -/
def pyTruthyInt : Option Int → Bool
  | none => false
  | some n => n ≠ 0

/-- Python `str.strip()`: remove whitespace from both ends of the string. -/
def pyStrip (s : String) : String :=
  ⟨((s.data.dropWhile Char.isWhitespace).reverse.dropWhile Char.isWhitespace).reverse⟩

/-- The `phase_desc` dictionary literal of
`ChEMBLWeaviateImporter.create_compound_description`
(src/chembl_importer.py lines 98-104), read through `.get(key, "")`. -/
def phase_desc (n : Int) : String :=
  if n = 0 then "not tested in clinical trials"
  else if n = 1 then "in Phase I clinical trials"
  else if n = 2 then "in Phase II clinical trials"
  else if n = 3 then "in Phase III clinical trials"
  else if n = 4 then "approved for clinical use"
  else ""

/-- The value of the `description` variable after line 95 of
src/chembl_importer.py: the text built before the `max_phase` branch. -/
def description_before_phase (c : Compound) : String :=
  let d := "This is a " ++ (c.molecule_type.getD "compound") ++ " "
  let d := if pyTruthyStr c.pref_name then d ++ "named " ++ c.pref_name.getD "" ++ " " else d
  d ++ "with ChEMBL ID " ++ c.molecule_chembl_id ++ ". "

/-- `ChEMBLWeaviateImporter.create_compound_description`
(src/chembl_importer.py lines 82-107).  The guard
`if compound.get('max_phase'):` is Python truthiness, so an absent
`max_phase` and a present `max_phase == 0` both skip the phase phrase. -/
def create_compound_description (c : Compound) : String :=
  let d := description_before_phase c
  let d :=
    if pyTruthyInt c.max_phase then d ++ phase_desc (c.max_phase.getD 0) else d
  pyStrip d

/-- The property bag built as `data_object` in
`ChEMBLWeaviateImporter.process_batch` (src/chembl_importer.py lines
125-133): exactly seven properties, none optional. -/
structure DataObject where
  molecule_chembl_id : String
  pref_name : String
  molecule_type : String
  max_phase : Int
  therapeutic_flag : Bool
  structure_type : String
  description : String
deriving DecidableEq, Repr

/-- The vector store content: indexed objects keyed by their uuid, each
holding the property bag and the vector passed to `batch.add_object`. -/
abbrev Store := List (String × DataObject × Vec)

/-- Lines 125-133 of src/chembl_importer.py: the `data_object` dictionary,
with the defaults of each `compound.get(key, default)` call. -/
def make_data_object (c : Compound) : DataObject :=
  { molecule_chembl_id := c.molecule_chembl_id
    pref_name := c.pref_name.getD ""
    molecule_type := c.molecule_type.getD ""
    max_phase := c.max_phase.getD 0
    therapeutic_flag := c.therapeutic_flag.getD false
    structure_type := c.structure_type.getD ""
    description := create_compound_description c }

/-- Modelled from the spec: `weaviate.util.generate_uuid5` is an external
library function (an RFC-4122 v5 hash of the name) absent from src/.  The
design document relies only on it being a pure deterministic function of its
input, which any Lean function is; it is modelled as such. -/
def generate_uuid5 (name : String) : String := "uuid5-" ++ name

/-- Modelled from the spec: the upsert-by-id contract of the Vector Store
collaborator (spec section 6): writing under an existing id overwrites that
object in place, writing under a fresh id appends it. -/
def upsert (store : Store) (id : String) (obj : DataObject) (vec : Vec) : Store :=
  if store.any (fun e => e.1 = id) then
    store.map (fun e => if e.1 = id then (id, obj, vec) else e)
  else store ++ [(id, obj, vec)]

/-- The two fallible collaborators used inside `process_batch`:
`self.model.encode` (the embedding provider) and `batch.add_object` (the
store write).  Either may raise, modelled by `Except`. -/
structure Env where
  encode : String → Except String Vec
  add_object : Store → String → DataObject → Vec → Except String Store

/-- `ChEMBLWeaviateImporter.process_batch` (src/chembl_importer.py lines
109-143).  Per record: build the description, call `self.model.encode`
(NOT inside any try/except, so a failure aborts the loop and propagates —
objects added before it remain in the store, as the batch context flushes
them), build `data_object`, then `batch.add_object` inside try/except: a
write failure is logged and the loop continues with the next record.
Returns the final store and the propagated exception, if any. -/
def process_batch (env : Env) (compounds : List Compound) (store : Store) :
    Store × Option String :=
  match compounds with
  | [] => (store, none)
  | c :: rest =>
    let description := create_compound_description c
    match env.encode description with
    | .error e => (store, some e)
    | .ok embedding =>
      let data_object := make_data_object c
      match env.add_object store (generate_uuid5 c.molecule_chembl_id) data_object embedding with
      | .ok store' => process_batch env rest store'
      | .error _ => process_batch env rest store

/-- An `Env` whose embedding provider always succeeds (returning
`encOk text`) and whose store write raises exactly on the ids selected by
`failSet`, performing the modelled upsert otherwise. -/
def storeEnv (encOk : String → Vec) (failSet : String → Bool) : Env :=
  { encode := fun s => .ok (encOk s)
    add_object := fun st id obj v =>
      if failSet id then .error ("Error adding compound " ++ id) else .ok (upsert st id obj v) }

/-- The store produced by upserting every record whose derived id is not in
`failSet`, in order, skipping the failing ones. -/
def writeAll (encOk : String → Vec) (failSet : String → Bool)
    (compounds : List Compound) (store : Store) : Store :=
  compounds.foldl (fun st c =>
    if failSet (generate_uuid5 c.molecule_chembl_id) then st
    else upsert st (generate_uuid5 c.molecule_chembl_id) (make_data_object c)
      (encOk (create_compound_description c))) store

/-- The batching loop of `ChEMBLWeaviateImporter.import_data`
(src/chembl_importer.py lines 164-167): `for i in range(0, len(compounds),
batch_size)` processes `compounds[i:i+batch_size]` per iteration and an
exception raised by a batch aborts the loop.  The `fuel` argument bounds the
number of iterations; each iteration consumes at least one record when
`bs ≥ 1` (and `import_data` rejects `bs = 0` as Python `range` does), so
fuel `compounds.length` is always sufficient. -/
def process_batches_go (env : Env) (bs : Nat) :
    Nat → List Compound → Store → Store × Option String
  | _, [], store => (store, none)
  | 0, _ :: _, store => (store, none)
  | fuel + 1, c :: rest, store =>
    match process_batch env ((c :: rest).take bs) store with
    | (store', some e) => (store', some e)
    | (store', none) => process_batches_go env bs fuel (rest.drop (bs - 1)) store'

/-- The batching loop with its fuel instantiated to the record count. -/
def process_batches (env : Env) (bs : Nat) (compounds : List Compound) (store : Store) :
    Store × Option String :=
  process_batches_go env bs compounds.length compounds store

/-- The collaborators of a full import run: those of `process_batch` plus
`fetch_chembl_data` (src/chembl_importer.py lines 63-80), which returns the
fetched records or re-raises its failure. -/
structure ImportEnv extends Env where
  fetch : Nat → Except String (List Compound)

/-- `ChEMBLWeaviateImporter.import_data` (src/chembl_importer.py lines
145-173).  The Python function returns None; the `Nat` produced here models
the count in its final log line, which is `len(compounds)` — the number
fetched, not the number written.  A fetch failure, a `batch_size` of zero
(Python `range` raises ValueError) and a batch failure are all re-raised by
the outer try/except.  The schema-or-create step touches no modelled state. -/
def import_data (env : ImportEnv) (batch_size : Nat) (limit : Nat) (store : Store) :
    Store × Except String Nat :=
  match env.fetch limit with
  | .error e => (store, .error e)
  | .ok compounds =>
    if batch_size = 0 then (store, .error "ValueError: range() arg 3 must not be zero")
    else
      match process_batches env.toEnv batch_size compounds store with
      | (store', some e) => (store', .error e)
      | (store', none) => (store', .ok compounds.length)

/-- An `ImportEnv` whose fetch succeeds with the given records, over
`storeEnv encOk failSet`. -/
def importEnv (compounds : List Compound) (encOk : String → Vec) (failSet : String → Bool) :
    ImportEnv :=
  { storeEnv encOk failSet with fetch := fun _ => .ok compounds }

/-- A query hit as returned by a `near_vector` store query: the property bag
of the object together with its reported distance. -/
structure QueryHit where
  properties : DataObject
  distance : ℚ
deriving DecidableEq, Repr

/-- An entry of the lists returned by `semantic_search` and
`get_similar_compounds`: the merged dictionary of the object properties and
the computed `certainty` (src/chembl_query.py lines 49-55 and 137-144). -/
structure SearchResult where
  properties : DataObject
  certainty : ℚ
deriving DecidableEq, Repr

/-- A stored object as seen by the read path: property bag plus vector. -/
structure IndexedObject where
  properties : DataObject
  vector : Vec
deriving DecidableEq, Repr

/-- The collaborators of `ChEMBLQueryUtil`: the embedding model, the
`near_vector` store query (returning hits with distances, nearest first by
the store contract), and the collection contents read by filtered queries. -/
structure QueryEnv where
  encode : String → Vec
  near_vector : Vec → Nat → List QueryHit
  collection : List IndexedObject

/-- The result conversion of the two vector queries:
`{**obj.properties, "certainty": 1 - obj.metadata.distance}`. -/
def to_search_result (o : QueryHit) : SearchResult :=
  { properties := o.properties, certainty := 1 - o.distance }

/-- `ChEMBLQueryUtil.semantic_search` (src/chembl_query.py lines 27-55) on
its default path (no `additional_filters`, the only path the claims touch):
embed the query, run `near_vector` with the given limit, convert each hit. -/
def semantic_search (env : QueryEnv) (query : String) (limit : Nat) : List SearchResult :=
  (env.near_vector (env.encode query) limit).map to_search_result

/-- `ChEMBLQueryUtil.filter_by_phase` (src/chembl_query.py lines 61-90):
the store evaluates the `GreaterThanEqual` where-filter on `max_phase` and
the limit, and the code keeps `obj.properties` of each hit.  No vector and
no embedding enters the computation. -/
def filter_by_phase (env : QueryEnv) (min_phase : Int) (limit : Nat) : List DataObject :=
  ((env.collection.filter (fun o => min_phase ≤ o.properties.max_phase)).take limit).map
    (fun o => o.properties)

/-- `ChEMBLQueryUtil.get_similar_compounds` (src/chembl_query.py lines
92-150): look up the reference by `molecule_chembl_id` equality (raising
ValueError when nothing matches, re-raised by the outer except), query
`near_vector` with the stored vector of the first match asking for
`limit + 1` hits, drop hits equal to the reference id, convert, and truncate
to `limit`. -/
def get_similar_compounds (env : QueryEnv) (chembl_id : String) (limit : Nat) :
    Except String (List SearchResult) :=
  match env.collection.filter (fun o => o.properties.molecule_chembl_id = chembl_id) with
  | [] => .error ("No compound found with ChEMBL ID: " ++ chembl_id)
  | ref :: _ =>
    let similar := env.near_vector ref.vector (limit + 1)
    .ok (((similar.filter (fun o => o.properties.molecule_chembl_id ≠ chembl_id)).map
        to_search_result).take limit)

/-- C4, first record of the claim (spec field names mapped to the source
keys: preferred_name is `pref_name`, chembl_id is `molecule_chembl_id`). -/
def aspirin : Compound :=
  { molecule_chembl_id := "CHEMBL25"
    pref_name := some "Aspirin"
    molecule_type := some "Small molecule"
    max_phase := some 4 }

/-- C4, second record of the claim: only the id is present. -/
def bareCompound : Compound := { molecule_chembl_id := "CHEMBL99" }

/-- C3, the failing record: `max_phase` present and equal to `0`. -/
def phaseZeroCompound : Compound :=
  { molecule_chembl_id := "CHEMBL1", max_phase := some 0 }

/-- Two records used by the concrete importer runs. -/
def cA : Compound := { molecule_chembl_id := "CHEMBLA" }

/-- Second record of the concrete importer runs. -/
def cB : Compound := { molecule_chembl_id := "CHEMBLB" }

/-- An environment whose embedding provider raises exactly on the
description of `cA` and whose store write always succeeds. -/
def embedFailEnv : Env :=
  { encode := fun s =>
      if s = create_compound_description cA then .error "embedding failed" else .ok [1]
    add_object := fun st id obj v => .ok (upsert st id obj v) }

/-- An import environment fetching `[cA, cB]` whose store write raises
exactly on the id derived for `cB`. -/
def writeFailEnvB : ImportEnv :=
  importEnv [cA, cB] (fun _ => [1]) (fun id => id = generate_uuid5 "CHEMBLB")

/-- A minimal property bag for concrete store contents. -/
def sampleObj (id : String) (phase : Int) : DataObject :=
  { molecule_chembl_id := id, pref_name := "", molecule_type := "", max_phase := phase,
    therapeutic_flag := false, structure_type := "", description := "" }

/-- A concrete store holding compounds with phases 0, 2, 3, 4, 4 (C8). -/
def phaseEnv : QueryEnv :=
  { encode := fun _ => []
    near_vector := fun _ _ => []
    collection := [⟨sampleObj "C0" 0, []⟩, ⟨sampleObj "C1" 2, []⟩, ⟨sampleObj "C2" 3, []⟩,
      ⟨sampleObj "C3" 4, []⟩, ⟨sampleObj "C4" 4, []⟩] }

/-- A concrete environment whose nearest-neighbor query returns the
reference itself first (distance 0) followed by three other compounds (C5). -/
def simEnv : QueryEnv :=
  { encode := fun _ => []
    near_vector := fun _ k =>
      ([⟨sampleObj "CHEMBL25" 4, 0⟩, ⟨sampleObj "X1" 1, mkRat 1 4⟩,
        ⟨sampleObj "X2" 1, mkRat 1 2⟩, ⟨sampleObj "X3" 2, mkRat 3 4⟩] : List QueryHit).take k
    collection := [⟨sampleObj "CHEMBL25" 4, [1]⟩] }

/-- A concrete environment with an empty collection (C6). -/
def emptyEnv : QueryEnv :=
  { encode := fun _ => [], near_vector := fun _ _ => [], collection := [] }

/-- A concrete environment whose nearest-neighbor query returns two hits in
ascending distance order with distances inside [0, 1] (C7). -/
def twoHitEnv : QueryEnv :=
  { encode := fun _ => []
    near_vector := fun _ _ => [⟨sampleObj "X1" 1, mkRat 1 4⟩, ⟨sampleObj "X2" 1, mkRat 1 2⟩]
    collection := [] }

/-- In `storeEnv`, a batch run never raises: write failures are swallowed
record by record and every non-failing record is upserted in order. -/
lemma process_batch_storeEnv (encOk : String → Vec) (failSet : String → Bool)
    (compounds : List Compound) (store : Store) :
    process_batch (storeEnv encOk failSet) compounds store =
      (writeAll encOk failSet compounds store, none) := by
  induction compounds generalizing store with
  | nil => rfl
  | cons c rest ih =>
    simp only [process_batch, storeEnv, writeAll, List.foldl_cons]
    by_cases hf : failSet (generate_uuid5 c.molecule_chembl_id) <;>
      simp only [hf, if_true, if_false, reduceIte] <;> exact ih _

/-- Splitting a record list splits the corresponding sequence of upserts. -/
lemma writeAll_append (encOk : String → Vec) (failSet : String → Bool)
    (l₁ l₂ : List Compound) (store : Store) :
    writeAll encOk failSet (l₁ ++ l₂) store =
      writeAll encOk failSet l₂ (writeAll encOk failSet l₁ store) := by
  simp [writeAll, List.foldl_append]

/-- With sufficient fuel and a positive batch size, the chunked loop over
`storeEnv` performs exactly the upserts of the whole record list. -/
lemma process_batches_go_storeEnv (encOk : String → Vec) (failSet : String → Bool)
    (bs : Nat) (hbs : bs ≠ 0) :
    ∀ fuel compounds store, compounds.length ≤ fuel →
      process_batches_go (storeEnv encOk failSet) bs fuel compounds store =
        (writeAll encOk failSet compounds store, none) := by
  intro fuel
  induction fuel with
  | zero =>
    intro compounds store hlen
    match compounds with
    | [] => rfl
    | c :: rest => simp at hlen
  | succ fuel ih =>
    intro compounds store hlen
    match compounds with
    | [] => rfl
    | c :: rest =>
      have hsplit : (c :: rest).take bs ++ (c :: rest).drop bs = c :: rest :=
        List.take_append_drop bs (c :: rest)
      have hdrop : (c :: rest).drop bs = rest.drop (bs - 1) := by
        match bs, hbs with
        | b + 1, _ => simp
      rw [process_batches_go, process_batch_storeEnv]
      dsimp only
      rw [ih (rest.drop (bs - 1)) _ (by
        have := List.length_drop (bs - 1) rest
        simp at hlen ⊢
        omega)]
      rw [← hdrop, ← writeAll_append, hsplit]

/-- The chunked loop over `storeEnv`, at its standard fuel. -/
lemma process_batches_storeEnv (encOk : String → Vec) (failSet : String → Bool)
    (bs : Nat) (hbs : bs ≠ 0) (compounds : List Compound) (store : Store) :
    process_batches (storeEnv encOk failSet) bs compounds store =
      (writeAll encOk failSet compounds store, none) :=
  process_batches_go_storeEnv encOk failSet bs hbs compounds.length compounds store le_rfl

/-- A full import run over `importEnv` writes every non-failing record and
reports the length of the fetched list, whatever `failSet` rejects. -/
lemma import_data_importEnv (compounds : List Compound) (encOk : String → Vec)
    (failSet : String → Bool) (bs limit : Nat) (store : Store) (hbs : bs ≠ 0) :
    import_data (importEnv compounds encOk failSet) bs limit store =
      (writeAll encOk failSet compounds store, .ok compounds.length) := by
  simp only [import_data, importEnv, hbs, if_false, reduceIte]
  rw [process_batches_storeEnv encOk failSet bs hbs]

/-- C1 counterexample.  The claim states an embedding failure is caught and
the remaining records of the batch are still written.  In the code,
`self.model.encode` sits outside the try/except: with the batch `[cA, cB]`
and an embedding provider failing on the description of `cA`, the run
aborts with the exception and `cB` is never written — although `cB` alone
would import fine in the same environment. -/
theorem C1_counterexample :
    process_batch embedFailEnv [cA, cB] [] = ([], some "embedding failed") ∧
    (process_batch embedFailEnv [cB] []).2 = none ∧
    (process_batch embedFailEnv [cB] []).1 ≠ [] :=
  ⟨by decide, by decide, by decide⟩

/-- C1, amended: only a failure of the store write (`batch.add_object`) is
caught, logged and skipped; with embeddings succeeding, a batch run never
aborts, every record whose write fails is skipped, and all remaining
records of the batch are still written, in order. -/
theorem C1_write_failures_skipped (encOk : String → Vec) (failSet : String → Bool)
    (compounds : List Compound) (store : Store) :
    process_batch (storeEnv encOk failSet) compounds store =
      (writeAll encOk failSet compounds store, none) :=
  process_batch_storeEnv encOk failSet compounds store

/-- C2 counterexample.  Fetching `[cA, cB]` with the write of `cB` failing:
the run reports a final count of 2 — `len(compounds)`, the number fetched —
while only 1 object was written to the store.  The Python function moreover
returns None rather than any count. -/
theorem C2_counterexample :
    (import_data writeFailEnvB 100 1000 []).2 = .ok 2 ∧
    ((import_data writeFailEnvB 100 1000 []).1).length = 1 :=
  ⟨by decide, by decide⟩

/-- C2, amended: `import_data` returns no count to its caller; its final
log line reports `len(compounds)` — the number of records fetched — and
that number is reported even when some records fail to write, so it can
exceed the successfully-written count. -/
theorem C2_reported_count_is_fetched (compounds : List Compound) (encOk : String → Vec)
    (failSet : String → Bool) (bs limit : Nat) (store : Store) (hbs : bs ≠ 0) :
    import_data (importEnv compounds encOk failSet) bs limit store =
      (writeAll encOk failSet compounds store, .ok compounds.length) :=
  import_data_importEnv compounds encOk failSet bs limit store hbs

/-- Witness for C2 at a concrete input. -/
theorem C2_reported_count_is_fetched_witness :
    import_data (importEnv [cA, cB] (fun _ => [1]) (fun _ => false)) 100 1000 [] =
      (writeAll (fun _ => [1]) (fun _ => false) [cA, cB] [],
        .ok ([cA, cB] : List Compound).length) :=
  C2_reported_count_is_fetched [cA, cB] (fun _ => [1]) (fun _ => false) 100 1000 [] (by decide)

/-- C3 counterexample.  The claim states a present `max_phase` of 0 appends
"not tested in clinical trials".  The guard `if compound.get('max_phase'):`
is falsy at 0, so the code appends nothing. -/
theorem C3_counterexample :
    phaseZeroCompound.max_phase = some 0 ∧
    create_compound_description phaseZeroCompound =
      "This is a compound with ChEMBL ID CHEMBL1." ∧
    create_compound_description phaseZeroCompound ≠
      "This is a compound with ChEMBL ID CHEMBL1. not tested in clinical trials" :=
  ⟨rfl, by decide, by decide⟩

/-- C3, amended: when `max_phase` is present with value n, the description
appends the matching phrase for n in 1..4 and nothing for n = 0 (skipped by
the truthiness guard despite the 0 entry of the phrase table) as well as
for any n outside 0..4. -/
theorem C3_phase_phrase (c : Compound) (n : Int) (h : c.max_phase = some n) :
    create_compound_description c =
      pyStrip (description_before_phase c ++
        (if n = 1 then "in Phase I clinical trials"
         else if n = 2 then "in Phase II clinical trials"
         else if n = 3 then "in Phase III clinical trials"
         else if n = 4 then "approved for clinical use"
         else "")) := by
  simp only [create_compound_description, h, pyTruthyInt, Option.getD_some]
  by_cases h0 : n = 0
  · subst h0
    simp [String.append_empty]
  · simp [phase_desc, h0]

/-- Witness for C3 at a concrete input. -/
theorem C3_phase_phrase_witness :
    aspirin.max_phase = some 4 ∧
    create_compound_description aspirin =
      pyStrip (description_before_phase aspirin ++
        (if (4 : Int) = 1 then "in Phase I clinical trials"
         else if (4 : Int) = 2 then "in Phase II clinical trials"
         else if (4 : Int) = 3 then "in Phase III clinical trials"
         else if (4 : Int) = 4 then "approved for clinical use"
         else "")) :=
  ⟨rfl, C3_phase_phrase aspirin 4 rfl⟩

/-- C4: the two worked examples of the spec, computed by the embedded
description builder. -/
theorem C4_description_examples :
    create_compound_description aspirin =
      "This is a Small molecule named Aspirin with ChEMBL ID CHEMBL25. approved for clinical use" ∧
    create_compound_description bareCompound =
      "This is a compound with ChEMBL ID CHEMBL99." :=
  ⟨by decide, by decide⟩

/-- C5: whenever `get_similar_compounds` succeeds, no returned entry
carries the reference id and at most `limit` entries are returned, although
the underlying query (visible in the definition) asks for `limit + 1`. -/
theorem C5_similar_excludes_reference (env : QueryEnv) (chembl_id : String) (limit : Nat)
    (res : List SearchResult)
    (h : get_similar_compounds env chembl_id limit = .ok res) :
    (∀ r ∈ res, r.properties.molecule_chembl_id ≠ chembl_id) ∧ res.length ≤ limit := by
  unfold get_similar_compounds at h
  match hm : env.collection.filter (fun o => o.properties.molecule_chembl_id = chembl_id) with
  | [] => rw [hm] at h; exact absurd h (by simp)
  | ref :: rest =>
    rw [hm] at h
    simp only [Except.ok.injEq] at h
    subst h
    constructor
    · intro r hr
      have hr' := List.mem_of_mem_take hr
      simp only [List.mem_map] at hr'
      obtain ⟨o, ho, rfl⟩ := hr'
      have := List.of_mem_filter ho
      simp [to_search_result] at this ⊢
      exact this
    · simp [filter_by_phase]

/-- Witness for C5 at a concrete input: the over-fetched hits include the
reference at distance 0, and the result drops it and keeps the three
others. -/
theorem C5_similar_excludes_reference_witness :
    (∀ r ∈ ([⟨sampleObj "X1" 1, 1 - mkRat 1 4⟩, ⟨sampleObj "X2" 1, 1 - mkRat 1 2⟩,
        ⟨sampleObj "X3" 2, 1 - mkRat 3 4⟩] : List SearchResult),
      r.properties.molecule_chembl_id ≠ "CHEMBL25") ∧
    ([⟨sampleObj "X1" 1, 1 - mkRat 1 4⟩, ⟨sampleObj "X2" 1, 1 - mkRat 1 2⟩,
        ⟨sampleObj "X3" 2, 1 - mkRat 3 4⟩] : List SearchResult).length ≤ 3 :=
  C5_similar_excludes_reference simEnv "CHEMBL25" 3 _ (by rfl)

/-- C6: when no stored object carries the requested `molecule_chembl_id`,
`get_similar_compounds` fails with the lookup error instead of returning a
list. -/
theorem C6_missing_reference_fails (env : QueryEnv) (chembl_id : String) (limit : Nat)
    (h : ∀ o ∈ env.collection, o.properties.molecule_chembl_id ≠ chembl_id) :
    get_similar_compounds env chembl_id limit =
      .error ("No compound found with ChEMBL ID: " ++ chembl_id) := by
  unfold get_similar_compounds
  have : env.collection.filter (fun o => o.properties.molecule_chembl_id = chembl_id) = [] := by
    rw [List.filter_eq_nil_iff]
    intro o ho
    simpa using h o ho
  rw [this]

/-- Witness for C6 at a concrete input. -/
theorem C6_missing_reference_fails_witness :
    get_similar_compounds emptyEnv "CHEMBL25" 3 =
      .error ("No compound found with ChEMBL ID: " ++ "CHEMBL25") :=
  C6_missing_reference_fails emptyEnv "CHEMBL25" 3 (by simp [emptyEnv])

/-- C7: each `semantic_search` entry scores `1 - distance` of its hit, and
under the stated assumptions on the store metric — hits ordered by
ascending distance, distances normalized to [0, 1] — the returned list is
sorted by descending score and every score lies in [0, 1]. -/
theorem C7_semantic_search_scores (env : QueryEnv) (query : String) (limit : Nat)
    (hsorted : (env.near_vector (env.encode query) limit).Pairwise
      (fun a b => a.distance ≤ b.distance))
    (hrange : ∀ o ∈ env.near_vector (env.encode query) limit,
      0 ≤ o.distance ∧ o.distance ≤ 1) :
    semantic_search env query limit =
      (env.near_vector (env.encode query) limit).map
        (fun o => { properties := o.properties, certainty := 1 - o.distance }) ∧
    (semantic_search env query limit).Pairwise (fun a b => b.certainty ≤ a.certainty) ∧
    ∀ r ∈ semantic_search env query limit, 0 ≤ r.certainty ∧ r.certainty ≤ 1 := by
  refine ⟨rfl, ?_, ?_⟩
  · unfold semantic_search
    rw [List.pairwise_map]
    exact hsorted.imp (by intro a b hab; simp only [to_search_result]; linarith)
  · intro r hr
    unfold semantic_search at hr
    rw [List.mem_map] at hr
    obtain ⟨o, ho, rfl⟩ := hr
    have := hrange o ho
    constructor <;> simp only [to_search_result] <;> linarith [this.1, this.2]

/-- Witness for C7 at a concrete input. -/
theorem C7_semantic_search_scores_witness :
    semantic_search twoHitEnv "q" 2 =
      (twoHitEnv.near_vector (twoHitEnv.encode "q") 2).map
        (fun o => { properties := o.properties, certainty := 1 - o.distance }) ∧
    (semantic_search twoHitEnv "q" 2).Pairwise (fun a b => b.certainty ≤ a.certainty) ∧
    ∀ r ∈ semantic_search twoHitEnv "q" 2, 0 ≤ r.certainty ∧ r.certainty ≤ 1 :=
  C7_semantic_search_scores twoHitEnv "q" 2 (by decide) (by decide)

/-- C8: `filter_by_phase` returns only compounds whose `max_phase` is at
least `min_phase`, returns at most `limit` of them, and involves no vector
(rewriting every stored vector leaves the result unchanged); and against the
store with phases [0, 2, 3, 4, 4], `min_phase = 3` and `limit = 2` return
exactly the 3 matching records truncated to 2. -/
theorem C8_filter_by_phase_properties (env : QueryEnv) (min_phase : Int) (limit : Nat) :
    (∀ p ∈ filter_by_phase env min_phase limit, min_phase ≤ p.max_phase) ∧
    (filter_by_phase env min_phase limit).length ≤ limit ∧
    (∀ g : IndexedObject → Vec,
      filter_by_phase
        { env with collection := env.collection.map (fun o => { o with vector := g o }) }
        min_phase limit =
      filter_by_phase env min_phase limit) ∧
    (phaseEnv.collection.filter (fun o => 3 ≤ o.properties.max_phase)).map
        (fun o => o.properties) =
      [sampleObj "C2" 3, sampleObj "C3" 4, sampleObj "C4" 4] ∧
    filter_by_phase phaseEnv 3 2 = [sampleObj "C2" 3, sampleObj "C3" 4] := by
  refine ⟨?_, ?_, ?_, by decide, by decide⟩
  · intro p hp
    unfold filter_by_phase at hp
    rw [List.mem_map] at hp
    obtain ⟨o, ho, rfl⟩ := hp
    have := List.of_mem_filter (List.mem_of_mem_take ho)
    simp at this
    exact this
  · unfold filter_by_phase
    simp
  · intro g
    unfold filter_by_phase
    simp only [List.filter_map, Function.comp]
    rw [← List.map_take, List.map_map]
    rfl

/-- Witness for C8 at a concrete input. -/
theorem C8_filter_by_phase_properties_witness : (3 : Int) ≤ (sampleObj "C2" 3).max_phase :=
  (C8_filter_by_phase_properties phaseEnv 3 2).1 (sampleObj "C2" 3) (by decide)

/-- C9: the derived identifier is a pure function of `molecule_chembl_id`
(records agreeing on the id derive the same identifier on every call), and
importing the same record twice leaves exactly one stored object under that
identifier — the second import reproduces the store of the first,
overwriting rather than duplicating. -/
theorem C9_idempotent_reimport (c : Compound) (encOk : String → Vec) :
    (∀ c' : Compound, c'.molecule_chembl_id = c.molecule_chembl_id →
      generate_uuid5 c'.molecule_chembl_id = generate_uuid5 c.molecule_chembl_id) ∧
    ∃ st1,
      process_batch (storeEnv encOk (fun _ => false)) [c] [] = (st1, none) ∧
      process_batch (storeEnv encOk (fun _ => false)) [c] st1 = (st1, none) ∧
      (st1.filter (fun e => e.1 = generate_uuid5 c.molecule_chembl_id)).length = 1 := by
  refine ⟨fun c' h => by rw [h], ⟨[(generate_uuid5 c.molecule_chembl_id, make_data_object c,
    encOk (create_compound_description c))], ?_, ?_, ?_⟩⟩
  · simp [process_batch, storeEnv, upsert]
  · simp [process_batch, storeEnv, upsert]
  · simp

/-- C10: a successful import of a record upserts exactly the seven-field
`data_object` (the `DataObject` type lists the seven properties, none of
them optional or nullable), and each absent optional field of the record is
stored with its concrete default: empty string for `pref_name`,
`molecule_type` and `structure_type`, 0 for `max_phase`, false for
`therapeutic_flag`. -/
theorem C10_stored_properties (c : Compound) (encOk : String → Vec) :
    process_batch (storeEnv encOk (fun _ => false)) [c] [] =
      ([(generate_uuid5 c.molecule_chembl_id, make_data_object c,
        encOk (create_compound_description c))], none) ∧
    (make_data_object c).molecule_chembl_id = c.molecule_chembl_id ∧
    (make_data_object c).description = create_compound_description c ∧
    (c.pref_name = none → (make_data_object c).pref_name = "") ∧
    (c.molecule_type = none → (make_data_object c).molecule_type = "") ∧
    (c.max_phase = none → (make_data_object c).max_phase = 0) ∧
    (c.therapeutic_flag = none → (make_data_object c).therapeutic_flag = false) ∧
    (c.structure_type = none → (make_data_object c).structure_type = "") := by
  refine ⟨by simp [process_batch, storeEnv, upsert], rfl, rfl, ?_, ?_, ?_, ?_, ?_⟩ <;>
    (intro h; simp [make_data_object, h])

/-- Witness for C10 at a concrete input. -/
theorem C10_stored_properties_witness :
    (make_data_object bareCompound).pref_name = "" ∧
    (make_data_object bareCompound).molecule_type = "" ∧
    (make_data_object bareCompound).max_phase = 0 ∧
    (make_data_object bareCompound).therapeutic_flag = false ∧
    (make_data_object bareCompound).structure_type = "" :=
  ⟨(C10_stored_properties bareCompound (fun _ => [1])).2.2.2.1 rfl,
   (C10_stored_properties bareCompound (fun _ => [1])).2.2.2.2.1 rfl,
   (C10_stored_properties bareCompound (fun _ => [1])).2.2.2.2.2.1 rfl,
   (C10_stored_properties bareCompound (fun _ => [1])).2.2.2.2.2.2.1 rfl,
   (C10_stored_properties bareCompound (fun _ => [1])).2.2.2.2.2.2.2 rfl⟩

end ChemA
